import Mathlib

/-!
Shallow embedding of `torchbearer/cv_utils.py`.

Tensors are modelled as Lists of samples along the first dimension; Python
floats are modelled as rationals; Python slicing and indexing (including
negative-index wrap-around) are modelled explicitly; `None`/exceptions are
modelled with `Option`.  The external pseudo-random primitives
(`random.seed`/`random.shuffle` from the Python standard library and
`torch.randperm`) are modelled abstractly: `random.shuffle` is Fisher-Yates,
which always produces a permutation of its input, so the abstract generator
carries that guarantee; `torch.randperm n` is an arbitrary permutation of
`[0, n)`, passed as a parameter and constrained by hypothesis where needed.
-/

namespace CvUtils

/-- Python/torch item lookup `l[i]` on a sequence: a negative index wraps
around once (effective index `len + i`); an index outside `[-len, len)`
raises `IndexError`, modelled as `none`. -/
def pyGetItem {α : Type} (l : List α) (i : Int) : Option α :=
  let j : Int := if i < 0 then (l.length : Int) + i else i
  if 0 ≤ j then l.get? j.toNat else none

/-- Effective bound of a Python slice endpoint `k` on a sequence of length
`len`: nonnegative endpoints clamp to `len`, negative endpoints count from
the end and clamp to `0`. -/
def pyBound (len : Nat) (k : Int) : Nat :=
  if 0 ≤ k then min k.toNat len else len - (-k).toNat

/-- Python slice `l[:k]`. -/
def pySliceTo {α : Type} (l : List α) (k : Int) : List α :=
  l.take (pyBound l.length k)

/-- Python slice `l[k:]`. -/
def pySliceFrom {α : Type} (l : List α) (k : Int) : List α :=
  l.drop (pyBound l.length k)

/-- torch integer-tensor indexing `x[indices]`: element `i` of the result is
`x[indices[i]]`. -/
def tensorIndex {α : Type} [Inhabited α] (x : List α) (idx : List Nat) : List α :=
  idx.map fun i => x.getI i

/-- `train_valid_splitter(x, y, split, shuffle)` from `cv_utils.py`:
computes `num_valid_samples = int(math.floor(num_samples_x * split))`,
optionally applies one joint random permutation (`torch.randperm`, supplied
here as the parameter `randperm`) to `x` and `y`, and returns
`(x[num:], y[num:], x[:num], y[:num])`, i.e. training data, training labels,
validation data, validation labels. -/
def train_valid_splitter {α β : Type} [Inhabited α] [Inhabited β]
    (x : List α) (y : List β) (split : ℚ) (shuffle : Bool)
    (randperm : Nat → List Nat) : List α × List β × List α × List β :=
  let num_samples_x := x.length
  let num_valid_samples : Int := Int.floor ((num_samples_x : ℚ) * split)
  let xy : List α × List β :=
    if shuffle then
      let indicies := randperm num_samples_x
      (tensorIndex x indicies, tensorIndex y indicies)
    else (x, y)
  (pySliceFrom xy.1 num_valid_samples, pySliceFrom xy.2 num_valid_samples,
   pySliceTo xy.1 num_valid_samples, pySliceTo xy.2 num_valid_samples)

/-- `TensorDataset(x, y)`: a dataset zipping a data tensor and a label
tensor. -/
structure TensorDataset (α β : Type) where
  data : List α
  labels : List β
deriving DecidableEq

/-- A Python value passed as `validation_split`: `None`, an `int`, or a
`float` (modelled as a rational).  `isinstance(v, float)` holds only for the
`float` constructor (a Python `int` or `bool` is not an instance of
`float`). -/
inductive PyVal where
  | none
  | int (n : Int)
  | float (q : ℚ)
deriving DecidableEq

/-- `isinstance(v, float)`. -/
def PyVal.isFloat : PyVal → Bool
  | .float _ => true
  | _ => false

/-- `get_train_valid_sets(x, y, validation_data, validation_split, shuffle)`
from `cv_utils.py`: if `validation_data` is not `None` use it as the
validation pair; else if `validation_split` is a float, split `x`,`y` with
`train_valid_splitter`; else no validation set.  Always returns a
`TensorDataset` over the (possibly reassigned) `x`,`y` and an optional
validation `TensorDataset`. -/
def get_train_valid_sets {α β : Type} [Inhabited α] [Inhabited β]
    (x : List α) (y : List β) (validation_data : Option (List α × List β))
    (validation_split : PyVal) (shuffle : Bool) (randperm : Nat → List Nat) :
    TensorDataset α β × Option (TensorDataset α β) :=
  match validation_data, validation_split with
  | some (x_val, y_val), _ => (⟨x, y⟩, some ⟨x_val, y_val⟩)
  | none, .float q =>
      let r := train_valid_splitter x y q shuffle randperm
      (⟨r.1, r.2.1⟩, some ⟨r.2.2.1, r.2.2.2⟩)
  | none, _ => (⟨x, y⟩, none)

/-- The process-wide pseudo-random generator used by
`random.seed`/`random.shuffle`, abstracted over its state type `σ`:
`seed` resets the state from an integer seed (Python's `random.seed` is a
deterministic function of its argument), `shuffle` permutes a list in place
and advances the state.  Python's `random.shuffle` is Fisher-Yates, which
always produces a permutation of its input; the field `shuffle_perm` records
that guarantee. -/
structure Rng (σ : Type) where
  seed : Int → σ
  shuffle : σ → List Nat → List Nat × σ
  shuffle_perm : ∀ (g : σ) (l : List Nat), (shuffle g l).1.Perm l

/-- `DatasetValidationSplitter`'s persistent fields. -/
structure DatasetValidationSplitter where
  dataset_len : Nat
  split_fraction : ℚ
  valid_ids : List Nat
  train_ids : List Nat
deriving DecidableEq

/-- The generator state after `if seed is not None: random.seed(seed)`:
reseeded when a seed is given, the incoming global state otherwise. -/
def seedState {σ : Type} (rng : Rng σ) (g : σ) (seed : Option Int) : σ :=
  match seed with
  | some sd => rng.seed sd
  | Option.none => g

/-- `DatasetValidationSplitter._gen_split_ids(seed)`: builds
`all_ids = list(range(dataset_len))`, reseeds the global generator when a
seed is given, shuffles, and cuts at
`int(math.floor(dataset_len * split_fraction))` into `valid_ids` (first
slice) and `train_ids` (remainder).  The global generator state is threaded
explicitly (`g` in, new state out). -/
def DatasetValidationSplitter.gen_split_ids {σ : Type} (rng : Rng σ) (g : σ)
    (s : DatasetValidationSplitter) (seed : Option Int) :
    DatasetValidationSplitter × σ :=
  let all_ids := List.range s.dataset_len
  let g1 := seedState rng g seed
  let sh := rng.shuffle g1 all_ids
  let num_valid_ids : Int := Int.floor ((s.dataset_len : ℚ) * s.split_fraction)
  ({ s with valid_ids := pySliceTo sh.1 num_valid_ids,
            train_ids := pySliceFrom sh.1 num_valid_ids }, sh.2)

/-- `DatasetValidationSplitter.__init__(dataset_len, split_fraction,
shuffle_seed)`: stores the arguments and calls `_gen_split_ids`. -/
def DatasetValidationSplitter.init {σ : Type} (rng : Rng σ) (g : σ)
    (dataset_len : Nat) (split_fraction : ℚ) (shuffle_seed : Option Int) :
    DatasetValidationSplitter × σ :=
  DatasetValidationSplitter.gen_split_ids rng g
    ⟨dataset_len, split_fraction, [], []⟩ shuffle_seed

/-- The record returned by `DatasetValidationSplitter.state_dict()`: exactly
the two keys `train_ids` and `valid_ids`. -/
structure StateDict where
  train_ids : List Nat
  valid_ids : List Nat
deriving DecidableEq

/-- `DatasetValidationSplitter.state_dict()`. -/
def DatasetValidationSplitter.state_dict (s : DatasetValidationSplitter) :
    StateDict :=
  ⟨s.train_ids, s.valid_ids⟩

/-- `DatasetValidationSplitter.load_state_dict(state_dict)`: overwrites
`train_ids` and `valid_ids` from the record. -/
def DatasetValidationSplitter.load_state_dict (s : DatasetValidationSplitter)
    (sd : StateDict) : DatasetValidationSplitter :=
  { s with train_ids := sd.train_ids, valid_ids := sd.valid_ids }

/-- `SubsetDataset(dataset, ids)`: a parent dataset (its `__getitem__`,
which may itself raise, hence `Int → Option α`) plus the stored id list. -/
structure SubsetDataset (α : Type) where
  dataset : Int → Option α
  ids : List Nat

/-- `SubsetDataset.__getitem__(index)`:
`self.dataset.__getitem__(self.ids[index])`; an `IndexError` from the Python
list lookup `self.ids[index]` propagates. -/
def SubsetDataset.getitem {α : Type} (s : SubsetDataset α) (index : Int) :
    Option α :=
  (pyGetItem s.ids index).bind fun i => s.dataset (i : Int)

/-- `SubsetDataset.__len__()`. -/
def SubsetDataset.len {α : Type} (s : SubsetDataset α) : Nat :=
  s.ids.length

/-- `DatasetValidationSplitter.get_train_dataset(dataset)`. -/
def DatasetValidationSplitter.get_train_dataset {α : Type}
    (s : DatasetValidationSplitter) (dataset : Int → Option α) :
    SubsetDataset α :=
  ⟨dataset, s.train_ids⟩

/-- `DatasetValidationSplitter.get_val_dataset(dataset)`. -/
def DatasetValidationSplitter.get_val_dataset {α : Type}
    (s : DatasetValidationSplitter) (dataset : Int → Option α) :
    SubsetDataset α :=
  ⟨dataset, s.valid_ids⟩

/-- `DatasetValidationSplitter.get_sets(dataset)`. -/
def DatasetValidationSplitter.get_sets {α : Type}
    (s : DatasetValidationSplitter) (dataset : Int → Option α) :
    SubsetDataset α × SubsetDataset α :=
  (s.get_train_dataset dataset, s.get_val_dataset dataset)

/-- A trivial generator instance (identity shuffle), used to instantiate
theorems at concrete inputs. -/
def idRng : Rng Unit where
  seed := fun _ => ()
  shuffle := fun g l => (l, g)
  shuffle_perm := fun _ _ => List.Perm.refl _

/-! ## Helper lemmas -/

lemma pyBound_le (len : Nat) (k : Int) : pyBound len k ≤ len := by
  unfold pyBound
  split
  · exact min_le_right _ _
  · exact Nat.sub_le _ _

lemma length_pySliceTo {α : Type} (l : List α) (k : Int) :
    (pySliceTo l k).length = pyBound l.length k := by
  simp [pySliceTo, Nat.min_eq_left (pyBound_le _ _)]

lemma length_pySliceFrom {α : Type} (l : List α) (k : Int) :
    (pySliceFrom l k).length = l.length - pyBound l.length k := by
  simp [pySliceFrom]

lemma pySliceTo_append_pySliceFrom {α : Type} (l : List α) (k : Int) :
    pySliceTo l k ++ pySliceFrom l k = l :=
  List.take_append_drop _ _

lemma floor_mul_toNat_le (N : Nat) (f : ℚ) (hf1 : f ≤ 1) :
    (Int.floor ((N : ℚ) * f)).toNat ≤ N := by
  have h : (N : ℚ) * f ≤ (N : ℚ) := by
    calc (N : ℚ) * f ≤ (N : ℚ) * 1 :=
          mul_le_mul_of_nonneg_left hf1 (by positivity)
      _ = (N : ℚ) := mul_one _
  have h2 : Int.floor ((N : ℚ) * f) ≤ (N : Int) := by
    have := Int.floor_le_floor h
    simpa using this
  omega

lemma pyBound_floor (N : Nat) (f : ℚ) (hf0 : 0 ≤ f) (hf1 : f ≤ 1) :
    pyBound N (Int.floor ((N : ℚ) * f)) = (Int.floor ((N : ℚ) * f)).toNat := by
  have h0 : (0 : Int) ≤ Int.floor ((N : ℚ) * f) :=
    Int.floor_nonneg.mpr (by positivity)
  simp [pyBound, h0, Nat.min_eq_left (floor_mul_toNat_le N f hf1)]

lemma shuffle_length {σ : Type} (rng : Rng σ) (g : σ) (l : List Nat) :
    (rng.shuffle g l).1.length = l.length :=
  (rng.shuffle_perm g l).length_eq

lemma init_valid_ids {σ : Type} (rng : Rng σ) (g : σ) (N : Nat) (f : ℚ)
    (seed : Option Int) :
    (DatasetValidationSplitter.init rng g N f seed).1.valid_ids
      = pySliceTo (rng.shuffle (seedState rng g seed) (List.range N)).1
          (Int.floor ((N : ℚ) * f)) := rfl

lemma init_train_ids {σ : Type} (rng : Rng σ) (g : σ) (N : Nat) (f : ℚ)
    (seed : Option Int) :
    (DatasetValidationSplitter.init rng g N f seed).1.train_ids
      = pySliceFrom (rng.shuffle (seedState rng g seed) (List.range N)).1
          (Int.floor ((N : ℚ) * f)) := rfl

lemma split_ids_append_perm {σ : Type} (rng : Rng σ) (g : σ) (N : Nat)
    (f : ℚ) (seed : Option Int) :
    ((DatasetValidationSplitter.init rng g N f seed).1.valid_ids
      ++ (DatasetValidationSplitter.init rng g N f seed).1.train_ids).Perm
      (List.range N) := by
  rw [init_valid_ids, init_train_ids, pySliceTo_append_pySliceFrom]
  exact rng.shuffle_perm _ _

lemma length_split_ids {σ : Type} (rng : Rng σ) (g : σ) (N : Nat) (f : ℚ)
    (seed : Option Int) :
    (DatasetValidationSplitter.init rng g N f seed).1.valid_ids.length
      = pyBound N (Int.floor ((N : ℚ) * f))
    ∧ (DatasetValidationSplitter.init rng g N f seed).1.train_ids.length
      = N - pyBound N (Int.floor ((N : ℚ) * f)) := by
  rw [init_valid_ids, init_train_ids]
  constructor
  · rw [length_pySliceTo, shuffle_length, List.length_range]
  · rw [length_pySliceFrom, shuffle_length, List.length_range]

lemma length_tvs {α β : Type} [Inhabited α] [Inhabited β]
    (x : List α) (y : List β) (f : ℚ) (sh : Bool) (rp : Nat → List Nat)
    (hy : y.length = x.length)
    (hp : (rp x.length).Perm (List.range x.length)) :
    (train_valid_splitter x y f sh rp).1.length
        = x.length - pyBound x.length (Int.floor ((x.length : ℚ) * f))
    ∧ (train_valid_splitter x y f sh rp).2.1.length
        = x.length - pyBound x.length (Int.floor ((x.length : ℚ) * f))
    ∧ (train_valid_splitter x y f sh rp).2.2.1.length
        = pyBound x.length (Int.floor ((x.length : ℚ) * f))
    ∧ (train_valid_splitter x y f sh rp).2.2.2.length
        = pyBound x.length (Int.floor ((x.length : ℚ) * f)) := by
  have hlen : (rp x.length).length = x.length := by
    simpa using hp.length_eq
  cases sh
  · refine ⟨?_, ?_, ?_, ?_⟩ <;>
      simp [train_valid_splitter, length_pySliceTo, length_pySliceFrom, hy]
  · refine ⟨?_, ?_, ?_, ?_⟩ <;>
      simp [train_valid_splitter, length_pySliceTo, length_pySliceFrom,
        tensorIndex, hlen]

/-! ## Claim theorems -/

/-- C1: for every dataset length and every fraction `f` in `[0,1]`, both the
tensor splitter and the index-partition splitter produce a validation part
of size `floor(N*f)` and a training part of size `N - floor(N*f)` (for the
tensor splitter, `N` is the length of `x`, and all four returned tensors
have the corresponding sizes). -/
theorem split_sizes {α β σ : Type} [Inhabited α] [Inhabited β]
    (x : List α) (y : List β) (f : ℚ) (sh : Bool) (rp : Nat → List Nat)
    (rng : Rng σ) (g : σ) (N : Nat) (seed : Option Int)
    (hf0 : 0 ≤ f) (hf1 : f ≤ 1)
    (hy : y.length = x.length)
    (hp : (rp x.length).Perm (List.range x.length)) :
    ((train_valid_splitter x y f sh rp).2.2.1.length
        = (Int.floor ((x.length : ℚ) * f)).toNat
      ∧ (train_valid_splitter x y f sh rp).2.2.2.length
        = (Int.floor ((x.length : ℚ) * f)).toNat
      ∧ (train_valid_splitter x y f sh rp).1.length
        = x.length - (Int.floor ((x.length : ℚ) * f)).toNat
      ∧ (train_valid_splitter x y f sh rp).2.1.length
        = x.length - (Int.floor ((x.length : ℚ) * f)).toNat)
    ∧ ((DatasetValidationSplitter.init rng g N f seed).1.valid_ids.length
        = (Int.floor ((N : ℚ) * f)).toNat
      ∧ (DatasetValidationSplitter.init rng g N f seed).1.train_ids.length
        = N - (Int.floor ((N : ℚ) * f)).toNat) := by
  have ht := length_tvs x y f sh rp hy hp
  have hg := length_split_ids rng g N f seed
  have hbx := pyBound_floor x.length f hf0 hf1
  have hbN := pyBound_floor N f hf0 hf1
  refine ⟨⟨?_, ?_, ?_, ?_⟩, ?_, ?_⟩
  · rw [ht.2.2.1, hbx]
  · rw [ht.2.2.2, hbx]
  · rw [ht.1, hbx]
  · rw [ht.2.1, hbx]
  · rw [hg.1, hbN]
  · rw [hg.2, hbN]

/-- C1 witness: the theorem applied at `x = [10,11,12,13]`,
`y = [20,21,22,23]`, `f = 1/2`, shuffle on with the identity permutation,
and an index splitter of length `4`, fraction `1/2`, seed `7`. -/
theorem split_sizes_witness :
    (0 : ℚ) ≤ 1/2 ∧ (1/2 : ℚ) ≤ 1
    ∧ (train_valid_splitter ([10, 11, 12, 13] : List Nat)
        ([20, 21, 22, 23] : List Nat) (1/2) true
        (fun n => List.range n)).2.2.1.length
      = (Int.floor ((4 : ℚ) * (1/2))).toNat
    ∧ (DatasetValidationSplitter.init idRng () 4 (1/2)
        (some 7)).1.train_ids.length
      = 4 - (Int.floor ((4 : ℚ) * (1/2))).toNat := by
  have h := split_sizes ([10, 11, 12, 13] : List Nat)
    ([20, 21, 22, 23] : List Nat) (1/2) true (fun n => List.range n)
    idRng () 4 (some 7) (by norm_num) (by norm_num) rfl (List.Perm.refl _)
  exact ⟨by norm_num, by norm_num, h.1.1, h.2.2⟩

/-- C2: for every constructed index-partition splitter over length `N`, the
id lists partition `[0, N)`: sorting their concatenation yields exactly
`range N`, they are disjoint, their lengths sum to `N`, and every index
below `N` occurs exactly once across the two lists. -/
theorem partition_complete {σ : Type} (rng : Rng σ) (g : σ) (N : Nat)
    (f : ℚ) (seed : Option Int) :
    List.insertionSort (· ≤ ·)
        ((DatasetValidationSplitter.init rng g N f seed).1.train_ids
          ++ (DatasetValidationSplitter.init rng g N f seed).1.valid_ids)
      = List.range N
    ∧ (DatasetValidationSplitter.init rng g N f seed).1.train_ids.Disjoint
        (DatasetValidationSplitter.init rng g N f seed).1.valid_ids
    ∧ (DatasetValidationSplitter.init rng g N f seed).1.train_ids.length
        + (DatasetValidationSplitter.init rng g N f seed).1.valid_ids.length
      = N
    ∧ ∀ i : Nat, i < N →
        ((DatasetValidationSplitter.init rng g N f seed).1.train_ids
          ++ (DatasetValidationSplitter.init rng g N f seed).1.valid_ids).count
            i = 1 := by
  have hperm : ((DatasetValidationSplitter.init rng g N f seed).1.train_ids
      ++ (DatasetValidationSplitter.init rng g N f seed).1.valid_ids).Perm
      (List.range N) :=
    List.perm_append_comm.trans (split_ids_append_perm rng g N f seed)
  have hnd : ((DatasetValidationSplitter.init rng g N f seed).1.train_ids
      ++ (DatasetValidationSplitter.init rng g N f seed).1.valid_ids).Nodup :=
    hperm.nodup_iff.mpr (List.nodup_range N)
  refine ⟨?_, ?_, ?_, ?_⟩
  · exact List.eq_of_perm_of_sorted
      ((List.perm_insertionSort _ _).trans hperm)
      (List.sorted_insertionSort _ _) (List.sorted_le_range N)
  · exact (List.nodup_append.mp hnd).2.2
  · simpa using hperm.length_eq
  · intro i hi
    exact List.count_eq_one_of_mem hnd
      (hperm.mem_iff.mpr (List.mem_range.mpr hi))

/-- C2 witness: the count clause of the theorem applied at `N = 4`,
`f = 1/2`, seed `0`, for the index `3`. -/
theorem partition_complete_witness :
    ((DatasetValidationSplitter.init idRng () 4 (1/2) (some 0)).1.train_ids
      ++ (DatasetValidationSplitter.init idRng () 4 (1/2)
            (some 0)).1.valid_ids).count 3 = 1 :=
  (partition_complete idRng () 4 (1/2) (some 0)).2.2.2 3 (by decide)

/-- C3: loading the record produced by `state_dict` restores `train_ids`
and `valid_ids` to exactly the exported values, whatever splitter instance
the record is loaded into. -/
theorem state_roundtrip (a b : DatasetValidationSplitter) :
    (b.load_state_dict a.state_dict).train_ids = a.train_ids
    ∧ (b.load_state_dict a.state_dict).valid_ids = a.valid_ids :=
  ⟨rfl, rfl⟩

/-- C4: two splitters constructed with the same length, fraction and
explicit (non-`None`) seed have identical `train_ids` and `valid_ids`,
whatever the prior global generator states were. -/
theorem seeded_determinism {σ : Type} (rng : Rng σ) (g1 g2 : σ) (N : Nat)
    (f : ℚ) (s : Int) :
    (DatasetValidationSplitter.init rng g1 N f (some s)).1.train_ids
      = (DatasetValidationSplitter.init rng g2 N f (some s)).1.train_ids
    ∧ (DatasetValidationSplitter.init rng g1 N f (some s)).1.valid_ids
      = (DatasetValidationSplitter.init rng g2 N f (some s)).1.valid_ids :=
  ⟨rfl, rfl⟩

/-- C5: when explicit validation data is supplied, `get_train_valid_sets`
returns it verbatim as the validation dataset and `x`,`y` verbatim as the
training dataset, for every split value and shuffle flag (which are thereby
ignored). -/
theorem explicit_validation_precedence {α β : Type} [Inhabited α]
    [Inhabited β] (x x_val : List α) (y y_val : List β) (vs : PyVal)
    (sh : Bool) (rp : Nat → List Nat) :
    get_train_valid_sets x y (some (x_val, y_val)) vs sh rp
      = (⟨x, y⟩, some ⟨x_val, y_val⟩) :=
  rfl

/-- C8: with no explicit validation data and a `validation_split` that is
not a Python float (an `int` such as `0` or `1`, or `None`), no split is
performed: the validation dataset is `None` and the training dataset holds
all of `x` and `y`. -/
theorem no_split_without_float {α β : Type} [Inhabited α] [Inhabited β]
    (x : List α) (y : List β) (vs : PyVal) (sh : Bool)
    (rp : Nat → List Nat) (h : vs.isFloat = false) :
    get_train_valid_sets x y Option.none vs sh rp
      = (⟨x, y⟩, Option.none) := by
  cases vs with
  | none => rfl
  | int n => rfl
  | float q => simp [PyVal.isFloat] at h

/-- C8 witness: the theorem applied at `x = [1]`, `y = [2]`,
`validation_split = int 0`. -/
theorem no_split_without_float_witness :
    (PyVal.int 0).isFloat = false
    ∧ get_train_valid_sets ([1] : List Nat) ([2] : List Nat) Option.none
        (PyVal.int 0) true (fun n => List.range n)
      = (⟨[1], [2]⟩, Option.none) :=
  ⟨rfl, no_split_without_float ([1] : List Nat) ([2] : List Nat)
    (PyVal.int 0) true (fun n => List.range n) rfl⟩

/-- C10: `load_state_dict` overwrites only the id lists; `dataset_len` and
`split_fraction` are unchanged, for every input record. -/
theorem load_state_frame (s : DatasetValidationSplitter) (sd : StateDict) :
    (s.load_state_dict sd).dataset_len = s.dataset_len
    ∧ (s.load_state_dict sd).split_fraction = s.split_fraction :=
  ⟨rfl, rfl⟩

/-- A concrete one-element subset view: parent returns the index itself for
nonnegative indices. -/
def subEx : SubsetDataset Nat where
  dataset := fun i => if 0 ≤ i then some i.toNat else Option.none
  ids := [5]

/-- A concrete three-element subset view: parent returns index + 2 for
nonnegative indices. -/
def subEx2 : SubsetDataset Nat where
  dataset := fun i => if 0 ≤ i then some (i.toNat + 2) else Option.none
  ids := [5, 6, 7]

/-- C6 counterexample: it is not the case that every index outside
`[0, len)` fails: on the one-element view `subEx`, `getitem (-1)` succeeds
(Python negative-index wrap-around) with the parent item at id `5`. -/
theorem subset_out_of_range_refuted :
    ¬ ∀ (s : SubsetDataset Nat),
        s.len = s.ids.length
        ∧ (∀ i : Int, i < 0 ∨ (s.ids.length : Int) ≤ i →
            s.getitem i = Option.none) := by
  intro h
  have h1 : subEx.getitem (-1) = Option.none :=
    (h subEx).2 (-1) (Or.inl (by decide))
  have h2 : subEx.getitem (-1) = some 5 := by decide
  rw [h2] at h1
  exact Option.noConfusion h1

/-- C6 (amended): the length of a subset view equals the length of its id
list; for `i` in `[0, len)` the item is read through `ids[i]` from the
parent; and an index fails with an out-of-range error exactly when it is
`≥ len` or `< -len` (a negative index in `[-len, 0)` wraps around instead
of failing). -/
theorem subset_indexing {α : Type} (s : SubsetDataset α) :
    s.len = s.ids.length
    ∧ (∀ i : Nat, i < s.ids.length →
        s.getitem i = s.dataset (s.ids.getI i))
    ∧ (∀ i : Int, (s.ids.length : Int) ≤ i ∨ i < -(s.ids.length : Int) →
        s.getitem i = Option.none) := by
  refine ⟨rfl, ?_, ?_⟩
  · intro i hi
    have h0 : ¬ ((i : Int) < 0) := not_lt.mpr (Int.natCast_nonneg i)
    have hget : s.ids[i]? = some (s.ids.getI i) := by
      rw [List.getI_eq_getElem _ hi]
      exact List.getElem?_eq_getElem hi
    simp [SubsetDataset.getitem, pyGetItem, h0, Int.natCast_nonneg, hget]
  · intro i hi
    rcases hi with hge | hlt
    · have h0 : ¬ (i < 0) := by omega
      have hpos : (0 : Int) ≤ i := by omega
      have hnone : s.ids[i.toNat]? = (Option.none : Option Nat) :=
        List.getElem?_eq_none (by omega)
      simp [SubsetDataset.getitem, pyGetItem, h0, hpos, hnone]
    · have h0 : i < 0 := by omega
      have hneg : ¬ ((0 : Int) ≤ (s.ids.length : Int) + i) := by omega
      simp [SubsetDataset.getitem, pyGetItem, h0, hneg]

/-- C6 witness: the amended theorem applied to the three-element view
`subEx2` at the in-range index `0` and the failing index `3`. -/
theorem subset_indexing_witness :
    subEx2.len = 3
    ∧ subEx2.getitem 0 = subEx2.dataset 5
    ∧ subEx2.getitem 3 = Option.none := by
  have h := subset_indexing subEx2
  exact ⟨h.1, h.2.1 0 (by decide), h.2.2 3 (Or.inl (by decide))⟩

/-- C9: on a subset view of length `L ≥ 1`, a negative index `i` with
`-L ≤ i < 0` does not raise: the id lookup succeeds (wrap-around) and the
item is read from the parent at `ids[L + i]`. -/
theorem negative_index_wraps {α : Type} (s : SubsetDataset α) (i : Int)
    (h1 : -(s.ids.length : Int) ≤ i) (h2 : i < 0) :
    (pyGetItem s.ids i).isSome = true
    ∧ s.getitem i
      = s.dataset (s.ids.getI ((s.ids.length : Int) + i).toNat) := by
  have h0j : (0 : Int) ≤ (s.ids.length : Int) + i := by omega
  have hjlt : ((s.ids.length : Int) + i).toNat < s.ids.length := by omega
  have hget : s.ids[((s.ids.length : Int) + i).toNat]?
      = some (s.ids.getI ((s.ids.length : Int) + i).toNat) := by
    rw [List.getI_eq_getElem _ hjlt]
    exact List.getElem?_eq_getElem hjlt
  have hpy : pyGetItem s.ids i
      = some (s.ids.getI ((s.ids.length : Int) + i).toNat) := by
    simp [pyGetItem, h2, h0j, hget]
  exact ⟨by rw [hpy]; rfl, by simp [SubsetDataset.getitem, hpy]⟩

/-- C9 witness: the theorem applied to `subEx2` at `i = -3`. -/
theorem negative_index_wraps_witness :
    -(subEx2.ids.length : Int) ≤ -3 ∧ (-3 : Int) < 0
    ∧ (pyGetItem subEx2.ids (-3)).isSome = true
    ∧ subEx2.getitem (-3)
      = subEx2.dataset
          (subEx2.ids.getI ((subEx2.ids.length : Int) + -3).toNat) := by
  have h := negative_index_wraps subEx2 (-3) (by decide) (by decide)
  exact ⟨by decide, by decide, h.1, h.2⟩

/-- C7: with N = 10, fraction 3/10 and shuffle disabled, training is the
samples at original indices 3..9 and validation the samples at original
indices 0..2, in original order; in general a fraction of 0 yields empty
validation tensors and a fraction of 1 yields empty training tensors. -/
theorem no_shuffle_example_and_degenerate_fractions :
    (∀ rp : Nat → List Nat,
        train_valid_splitter (List.range 10) (List.range 10) (3/10) false rp
          = ([3, 4, 5, 6, 7, 8, 9], [3, 4, 5, 6, 7, 8, 9],
             [0, 1, 2], [0, 1, 2]))
    ∧ (∀ (α β : Type) [Inhabited α] [Inhabited β] (x : List α) (y : List β)
         (sh : Bool) (rp : Nat → List Nat),
         y.length = x.length →
         (rp x.length).Perm (List.range x.length) →
         ((train_valid_splitter x y 0 sh rp).2.2.1 = []
           ∧ (train_valid_splitter x y 0 sh rp).2.2.2 = [])
         ∧ ((train_valid_splitter x y 1 sh rp).1 = []
           ∧ (train_valid_splitter x y 1 sh rp).2.1 = [])) := by
  constructor
  · intro rp
    have h3 : Int.floor (((List.range 10).length : ℚ) * (3/10))
        = (3 : Int) := by
      norm_num
    simp only [train_valid_splitter, h3, Bool.false_eq_true, if_false]
    decide
  · intro α β inst1 inst2 x y sh rp hy hp
    have h0 := length_tvs x y 0 sh rp hy hp
    have h1 := length_tvs x y 1 sh rp hy hp
    have hb0 : pyBound x.length (Int.floor ((x.length : ℚ) * 0)) = 0 := by
      simp [pyBound]
    have hb1 : pyBound x.length (Int.floor ((x.length : ℚ) * 1))
        = x.length := by
      simp [pyBound, Int.natCast_nonneg, min_self]
    refine ⟨⟨?_, ?_⟩, ?_, ?_⟩
    · exact List.length_eq_zero.mp (by rw [h0.2.2.1, hb0])
    · exact List.length_eq_zero.mp (by rw [h0.2.2.2, hb0])
    · exact List.length_eq_zero.mp (by rw [h1.1, hb1, Nat.sub_self])
    · exact List.length_eq_zero.mp (by rw [h1.2.1, hb1, Nat.sub_self])

/-- C7 witness: the degenerate-fraction clause applied at concrete tensors
of length 2 with fraction 1 and shuffle on. -/
theorem no_shuffle_example_witness :
    (train_valid_splitter ([10, 11] : List Nat) ([20, 21] : List Nat) 1 true
      (fun n => List.range n)).1 = [] := by
  have h := no_shuffle_example_and_degenerate_fractions.2 Nat Nat
    [10, 11] [20, 21] true (fun n => List.range n) rfl (List.Perm.refl _)
  exact h.2.1

end CvUtils
